import Mathlib

/-!
Shallow embedding of `mediapipe/tasks/python/vision/image_classifier.py`:
the MediaPipe image-classifier task orchestration layer.  The external
graph runtime is modelled as an explicit function from input packet maps
to output packet maps; payloads crossing the boundary (images, protos)
are opaque value types.  Parts of the repository that this file's claims
depend on but that are not shipped alongside the classifier module
(the `BaseVisionTaskApi` constructor validation, its running-mode checks,
the timestamp monotonicity guard, and `TaskInfo.generate_graph_config`)
are modelled from the specification and marked as such.
-/

namespace Mediapipe

/-- The three running modes of a vision task
(`vision_task_running_mode.VisionTaskRunningMode`):
IMAGE = single-image sync, VIDEO = timestamped sync, LIVE_STREAM = async. -/
inductive VisionTaskRunningMode where
  | IMAGE
  | VIDEO
  | LIVE_STREAM
deriving DecidableEq

/-- Normalized rectangle `rect.NormalizedRect`: all coordinates are
relative to the image dimensions. -/
structure NormalizedRect where
  x_center : ℚ
  y_center : ℚ
  width : ℚ
  height : ℚ
deriving DecidableEq

/-- Proto form of a normalized rectangle (`rect_pb2.NormalizedRect`). -/
structure NormalizedRectProto where
  x_center : ℚ
  y_center : ℚ
  width : ℚ
  height : ℚ
deriving DecidableEq

/-- `NormalizedRect.to_pb2`: field-for-field conversion to the proto form. -/
def NormalizedRect.to_pb2 (r : NormalizedRect) : NormalizedRectProto :=
  { x_center := r.x_center, y_center := r.y_center,
    width := r.width, height := r.height }

/-- `_build_full_image_norm_rect`: builds a NormalizedRect covering the
entire image. -/
def build_full_image_norm_rect : NormalizedRect :=
  { x_center := 1/2, y_center := 1/2, width := 1, height := 1 }

/-- `_CLASSIFICATION_RESULT_OUT_STREAM_NAME`. -/
def CLASSIFICATION_RESULT_OUT_STREAM_NAME : String := "classification_result_out"

/-- `_CLASSIFICATION_RESULT_TAG`. -/
def CLASSIFICATION_RESULT_TAG : String := "CLASSIFICATION_RESULT"

/-- `_IMAGE_IN_STREAM_NAME`. -/
def IMAGE_IN_STREAM_NAME : String := "image_in"

/-- `_IMAGE_OUT_STREAM_NAME`. -/
def IMAGE_OUT_STREAM_NAME : String := "image_out"

/-- `_IMAGE_TAG`. -/
def IMAGE_TAG : String := "IMAGE"

/-- `_NORM_RECT_NAME`. -/
def NORM_RECT_NAME : String := "norm_rect_in"

/-- `_NORM_RECT_TAG`. -/
def NORM_RECT_TAG : String := "NORM_RECT"

/-- `_TASK_GRAPH_NAME`. -/
def TASK_GRAPH_NAME : String := "mediapipe.tasks.vision.image_classifier.ImageClassifierGraph"

/-- The separator used by the stream-name joins in `TaskInfo` wiring. -/
def COLON : String := ":"

/-- `':'.join(parts)`. -/
def joinColon (parts : List String) : String :=
  String.intercalate COLON parts

/-- `_MICRO_SECONDS_PER_MILLISECOND = 1000`. -/
def MICRO_SECONDS_PER_MILLISECOND : Int := 1000

/-- An input image (`image_module.Image`): opaque payload crossing the
runtime boundary, identified by a token. -/
structure Image where
  id : Nat
deriving DecidableEq

/-- One per-category classification group in proto form
(`classifications_pb2` entry): opaque payload. -/
structure ClassificationsProto where
  data : Nat
deriving DecidableEq

/-- `classifications_pb2.ClassificationResult`: the proto carried on the
classification-result output stream, a list of per-category groups. -/
structure ClassificationResultProto where
  classifications : List ClassificationsProto
deriving DecidableEq

/-- `classifications.Classifications`: the user-facing decoded form of one
per-category classification group.  The decoding itself
(`Classifications.create_from_pb2`) is serialization glue outside the
orchestration layer; it is modelled as an opaque wrapper of the proto. -/
structure Classifications where
  pb2 : ClassificationsProto
deriving DecidableEq

/-- `Classifications.create_from_pb2`. -/
def Classifications.create_from_pb2 (c : ClassificationsProto) : Classifications :=
  { pb2 := c }

/-- `classifications.ClassificationResult`: the value returned to the
caller, a list of decoded per-category classification groups. -/
structure ClassificationResult where
  classifications : List Classifications
deriving DecidableEq

/-- Payload of a runtime packet: an image, a normalized-rect proto, a
classification-result proto, or nothing (empty packet). -/
inductive PacketPayload where
  | image (img : Image)
  | normRectProto (r : NormalizedRectProto)
  | classificationProto (c : ClassificationResultProto)
  | empty
deriving DecidableEq

/-- A runtime packet (`packet.Packet`): a payload plus an optional
timestamp in microseconds (`none` = untimed packet). -/
structure Packet where
  payload : PacketPayload
  timestamp : Option Int
deriving DecidableEq

/-- `Packet.is_empty()`. -/
def Packet.is_empty (p : Packet) : Bool :=
  p.payload = PacketPayload.empty

/-- `packet.at(ts)`: the same packet bound to timestamp `ts`
(microseconds). -/
def Packet.atTimestamp (p : Packet) (ts : Int) : Packet :=
  { p with timestamp := some ts }

/-- `packet.timestamp.value`: the numeric timestamp of a packet; an
untimed packet reads as 0 (Timestamp.UNSET), a case no claim exercises. -/
def Packet.timestamp_value (p : Packet) : Int :=
  p.timestamp.getD 0

/-- A packet set keyed by stream name (the Python `dict` literals /
`Mapping[str, packet.Packet]`), as an association list in literal order. -/
abbrev PacketMap := List (String × Packet)

/-- Mapping access `m[name]`; a missing stream reads as an empty untimed
packet (the runtime contract always populates both output streams). -/
def getPacket (m : PacketMap) (name : String) : Packet :=
  (m.lookup name).getD { payload := PacketPayload.empty, timestamp := none }

/-- `packet_creator.create_image`. -/
def packet_creator.create_image (img : Image) : Packet :=
  { payload := PacketPayload.image img, timestamp := none }

/-- `packet_creator.create_proto` applied to a `NormalizedRect` proto. -/
def packet_creator.create_proto (r : NormalizedRectProto) : Packet :=
  { payload := PacketPayload.normRectProto r, timestamp := none }

/-- `packet_getter.get_proto` on the classification-result stream:
extracts the `ClassificationResult` proto.  A packet of any other payload
kind would raise in Python; that case reads as the empty proto here and
is not exercised by any claim. -/
def packet_getter.get_proto (p : Packet) : ClassificationResultProto :=
  match p.payload with
  | PacketPayload.classificationProto c => c
  | _ => { classifications := [] }

/-- `packet_getter.get_image`: extracts the image payload; any other
payload kind would raise in Python and reads as a default token here. -/
def packet_getter.get_image (p : Packet) : Image :=
  match p.payload with
  | PacketPayload.image img => img
  | _ => { id := 0 }

/-- `classifier_options.ClassifierOptions`: opaque pass-through options
for the classification step. -/
structure ClassifierOptions where
  data : Nat
deriving DecidableEq

/-- Proto form of the classifier options. -/
structure ClassifierOptionsProto where
  data : Nat
deriving DecidableEq

/-- `ClassifierOptions.to_pb2`: opaque pass-through. -/
def ClassifierOptions.to_pb2 (c : ClassifierOptions) : ClassifierOptionsProto :=
  { data := c.data }

/-- Modelled from the spec: `base_options_module.BaseOptions` is not under
src/ (option parsing is mechanical glue, "opaque pass-through" per the
spec); only the model reference fields are represented. -/
structure BaseOptions where
  model_asset_path : Option String
  model_asset_buffer : Option Nat
deriving DecidableEq

/-- Modelled from the spec: the `BaseOptions` proto, carrying the model
reference fields unchanged plus the `use_stream_mode` flag (proto default
false) that `ImageClassifierOptions.to_pb2` overwrites. -/
structure BaseOptionsProto where
  model_asset_path : Option String
  model_asset_buffer : Option Nat
  use_stream_mode : Bool
deriving DecidableEq

/-- Modelled from the spec: `BaseOptions.to_pb2` maps the model reference
fields unchanged; `use_stream_mode` starts at its proto default. -/
def BaseOptions.to_pb2 (b : BaseOptions) : BaseOptionsProto :=
  { model_asset_path := b.model_asset_path,
    model_asset_buffer := b.model_asset_buffer,
    use_stream_mode := false }

/-- `image_classifier_graph_options_pb2.ImageClassifierGraphOptions`. -/
structure ImageClassifierGraphOptionsProto where
  base_options : BaseOptionsProto
  classifier_options : ClassifierOptionsProto
deriving DecidableEq

/-- `ImageClassifierOptions`: task configuration.  The user result
callback is a dynamically invoked function reference in the source; the
orchestration logic observes only its presence (`if options.result_callback`),
so it is modelled by a presence flag, and callback invocations are
modelled by `packets_callback` returning the argument triple it would be
invoked with. -/
structure ImageClassifierOptions where
  base_options : BaseOptions
  running_mode : VisionTaskRunningMode
  classifier_options : ClassifierOptions
  result_callback_present : Bool
deriving DecidableEq

/-- `ImageClassifierOptions.to_pb2`: generates the graph-options proto,
setting `use_stream_mode = False if running_mode == IMAGE else True` on
the base-options proto. -/
def ImageClassifierOptions.to_pb2 (self : ImageClassifierOptions) :
    ImageClassifierGraphOptionsProto :=
  let base_options_proto := self.base_options.to_pb2
  let base_options_proto :=
    { base_options_proto with
      use_stream_mode :=
        if self.running_mode = VisionTaskRunningMode.IMAGE then false else true }
  let classifier_options_proto := self.classifier_options.to_pb2
  { base_options := base_options_proto,
    classifier_options := classifier_options_proto }

/-- Errors signalled by the orchestration layer (Python `ValueError`s),
distinguished by cause. -/
inductive TaskError where
  | invalidRunningMode
  | monotonicityViolation
  | resultCallbackMissing
  | resultCallbackUnexpected
deriving DecidableEq

/-- `task_info_module.TaskInfo`: graph wiring description. -/
structure TaskInfo where
  task_graph : String
  input_streams : List String
  output_streams : List String
deriving DecidableEq

/-- The graph configuration handed to the runtime. -/
structure CalculatorGraphConfig where
  task_graph : String
  input_streams : List String
  output_streams : List String
  enable_flow_limiting : Bool
deriving DecidableEq

/-- Modelled from the spec: `TaskInfo.generate_graph_config` is not under
src/; it serializes the wiring and the requested flow-limiting flag into
the graph configuration (the serialized task options are opaque and
omitted). -/
def TaskInfo.generate_graph_config (info : TaskInfo)
    (enable_flow_limiting : Bool) : CalculatorGraphConfig :=
  { task_graph := info.task_graph,
    input_streams := info.input_streams,
    output_streams := info.output_streams,
    enable_flow_limiting := enable_flow_limiting }

/-- The task instance (`ImageClassifier`, holding the
`BaseVisionTaskApi` state): graph configuration, fixed running mode,
whether a packet callback was registered, and the monotonicity-guard
state (modelled from the spec: "last accepted timestamp", initially
unset, in caller milliseconds). -/
structure ImageClassifier where
  graph_config : CalculatorGraphConfig
  running_mode : VisionTaskRunningMode
  packets_callback_present : Bool
  last_timestamp_ms : Option Int
deriving DecidableEq

/-- Modelled from the spec: the timestamp monotonicity guard's
`accept` test — succeeds when no timestamp was accepted yet or when the
new timestamp strictly exceeds the last accepted one. -/
def timestampAccepted : Option Int → Int → Bool
  | none, _ => true
  | some prev, ts => decide (prev < ts)

/-- Result of one entry-point call: the returned value or signalled
error, the packet sets dispatched to the runtime during the call (in
order), and the task state after the call. -/
structure StepResult (α : Type) where
  out : Except TaskError α
  submitted : List PacketMap
  state : ImageClassifier

/-- `packets_callback` (the result dispatcher registered for async mode):
given a delivered output packet map, returns `none` when the delivery is
dropped (empty echoed-image packet) and otherwise `some` of the argument
triple `(result, image, timestamp_ms)` the user callback is invoked with,
exactly once per delivery. -/
def packets_callback (output_packets : PacketMap) :
    Option (ClassificationResult × Image × Int) :=
  if (getPacket output_packets IMAGE_OUT_STREAM_NAME).is_empty then
    none
  else
    let classification_result_proto :=
      packet_getter.get_proto
        (getPacket output_packets CLASSIFICATION_RESULT_OUT_STREAM_NAME)
    let classification_result : ClassificationResult :=
      { classifications :=
          classification_result_proto.classifications.map
            Classifications.create_from_pb2 }
    let image :=
      packet_getter.get_image (getPacket output_packets IMAGE_OUT_STREAM_NAME)
    let timestamp :=
      (getPacket output_packets IMAGE_OUT_STREAM_NAME).timestamp_value
    some (classification_result, image,
          Int.fdiv timestamp MICRO_SECONDS_PER_MILLISECOND)

/-- The `TaskInfo` literal built by `create_from_options`. -/
def imageClassifierTaskInfo : TaskInfo :=
  { task_graph := TASK_GRAPH_NAME,
    input_streams :=
      [joinColon [IMAGE_TAG, IMAGE_IN_STREAM_NAME],
       joinColon [NORM_RECT_TAG, NORM_RECT_NAME]],
    output_streams :=
      [joinColon [CLASSIFICATION_RESULT_TAG, CLASSIFICATION_RESULT_OUT_STREAM_NAME],
       joinColon [IMAGE_TAG, IMAGE_OUT_STREAM_NAME]] }

/-- The graph configuration `create_from_options` passes to the runtime:
`task_info.generate_graph_config(enable_flow_limiting=options.running_mode ==
_RunningMode.LIVE_STREAM)`. -/
def generated_graph_config (options : ImageClassifierOptions) :
    CalculatorGraphConfig :=
  imageClassifierTaskInfo.generate_graph_config
    (options.running_mode = VisionTaskRunningMode.LIVE_STREAM)

/-- `ImageClassifier.create_from_options`.  The packet callback passed to
the task is `packets_callback if options.result_callback else None`.  The
mode/callback consistency validation is Modelled from the spec: it lives
in the `BaseVisionTaskApi` constructor, which is not under src/ ("callback
is present iff mode is ASYNC_STREAM; constructing with a callback in a
non-async mode, or without one in async mode, is a configuration error"). -/
def ImageClassifier.create_from_options (options : ImageClassifierOptions) :
    Except TaskError ImageClassifier :=
  let graph_config := generated_graph_config options
  let packet_callback_present := options.result_callback_present
  if options.running_mode = VisionTaskRunningMode.LIVE_STREAM then
    if packet_callback_present then
      Except.ok
        { graph_config := graph_config,
          running_mode := options.running_mode,
          packets_callback_present := packet_callback_present,
          last_timestamp_ms := none }
    else
      Except.error TaskError.resultCallbackMissing
  else
    if packet_callback_present then
      Except.error TaskError.resultCallbackUnexpected
    else
      Except.ok
        { graph_config := graph_config,
          running_mode := options.running_mode,
          packets_callback_present := packet_callback_present,
          last_timestamp_ms := none }

/-- `ImageClassifier.create_from_model_path`: default options, IMAGE
mode, no callback. -/
def ImageClassifier.create_from_model_path (model_path : String) :
    Except TaskError ImageClassifier :=
  ImageClassifier.create_from_options
    { base_options :=
        { model_asset_path := some model_path, model_asset_buffer := none },
      running_mode := VisionTaskRunningMode.IMAGE,
      classifier_options := { data := 0 },
      result_callback_present := false }

/-- `ImageClassifier.classify` (SYNC_IMAGE entry point).  The running-mode
gate is performed by `BaseVisionTaskApi._process_image_data` (not under
src/, Modelled from the spec: "each checks, before doing any work, that it
is only invoked from a task instance constructed with the matching
mode").  The runtime is the explicit `runner` collaborator; the packet
set built from the image and the (defaulted) region of interest is
dispatched untimed, and the classification-result output packet is
decoded into the returned value. -/
def ImageClassifier.classify (self : ImageClassifier)
    (runner : PacketMap → PacketMap) (image : Image)
    (roi : Option NormalizedRect) : StepResult ClassificationResult :=
  if self.running_mode = VisionTaskRunningMode.IMAGE then
    let norm_rect :=
      match roi with
      | some r => r
      | none => build_full_image_norm_rect
    let input_packets : PacketMap :=
      [(IMAGE_IN_STREAM_NAME, packet_creator.create_image image),
       (NORM_RECT_NAME, packet_creator.create_proto norm_rect.to_pb2)]
    let output_packets := runner input_packets
    let classification_result_proto :=
      packet_getter.get_proto
        (getPacket output_packets CLASSIFICATION_RESULT_OUT_STREAM_NAME)
    { out := Except.ok
        { classifications :=
            classification_result_proto.classifications.map
              Classifications.create_from_pb2 },
      submitted := [input_packets],
      state := self }
  else
    { out := Except.error TaskError.invalidRunningMode,
      submitted := [], state := self }

/-- `ImageClassifier.classify_for_video` (SYNC_VIDEO entry point).  The
running-mode gate and the timestamp monotonicity guard are Modelled from
the spec (they live in `BaseVisionTaskApi` / the task runner, not under
src/): the guard is consulted before the packet set is dispatched, so a
rejected call has no observable side effect.  On acceptance both packets
are bound to `timestamp_ms * _MICRO_SECONDS_PER_MILLISECOND` and the
guard records `timestamp_ms`. -/
def ImageClassifier.classify_for_video (self : ImageClassifier)
    (runner : PacketMap → PacketMap) (image : Image) (timestamp_ms : Int)
    (roi : Option NormalizedRect) : StepResult ClassificationResult :=
  if self.running_mode = VisionTaskRunningMode.VIDEO then
    if timestampAccepted self.last_timestamp_ms timestamp_ms then
      let norm_rect :=
        match roi with
        | some r => r
        | none => build_full_image_norm_rect
      let input_packets : PacketMap :=
        [(IMAGE_IN_STREAM_NAME,
          (packet_creator.create_image image).atTimestamp
            (timestamp_ms * MICRO_SECONDS_PER_MILLISECOND)),
         (NORM_RECT_NAME,
          (packet_creator.create_proto norm_rect.to_pb2).atTimestamp
            (timestamp_ms * MICRO_SECONDS_PER_MILLISECOND))]
      let output_packets := runner input_packets
      let classification_result_proto :=
        packet_getter.get_proto
          (getPacket output_packets CLASSIFICATION_RESULT_OUT_STREAM_NAME)
      { out := Except.ok
          { classifications :=
              classification_result_proto.classifications.map
                Classifications.create_from_pb2 },
        submitted := [input_packets],
        state := { self with last_timestamp_ms := some timestamp_ms } }
    else
      { out := Except.error TaskError.monotonicityViolation,
        submitted := [], state := self }
  else
    { out := Except.error TaskError.invalidRunningMode,
      submitted := [], state := self }

/-- `ImageClassifier.classify_async` (ASYNC_STREAM entry point).  The
running-mode gate and the monotonicity guard are Modelled from the spec
as for `classify_for_video`.  `_send_live_stream_data` pushes the packet
set and returns immediately without consulting the runtime for an
output, so no runner is taken and the returned value is `()`. -/
def ImageClassifier.classify_async (self : ImageClassifier) (image : Image)
    (timestamp_ms : Int) (roi : Option NormalizedRect) : StepResult Unit :=
  if self.running_mode = VisionTaskRunningMode.LIVE_STREAM then
    if timestampAccepted self.last_timestamp_ms timestamp_ms then
      let norm_rect :=
        match roi with
        | some r => r
        | none => build_full_image_norm_rect
      let input_packets : PacketMap :=
        [(IMAGE_IN_STREAM_NAME,
          (packet_creator.create_image image).atTimestamp
            (timestamp_ms * MICRO_SECONDS_PER_MILLISECOND)),
         (NORM_RECT_NAME,
          (packet_creator.create_proto norm_rect.to_pb2).atTimestamp
            (timestamp_ms * MICRO_SECONDS_PER_MILLISECOND))]
      { out := Except.ok (),
        submitted := [input_packets],
        state := { self with last_timestamp_ms := some timestamp_ms } }
    else
      { out := Except.error TaskError.monotonicityViolation,
        submitted := [], state := self }
  else
    { out := Except.error TaskError.invalidRunningMode,
      submitted := [], state := self }

/-! Concrete fixtures used by the closed witness and counterexample
theorems below. -/

/-- A sample input image token. -/
def sampleImage : Image := { id := 1 }

/-- A second, distinct sample input image token. -/
def sampleImage2 : Image := { id := 2 }

/-- A sample caller-supplied region of interest. -/
def sampleRect : NormalizedRect :=
  { x_center := 1/4, y_center := 1/4, width := 1/2, height := 1/2 }

/-- A stub runtime that returns no output packets. -/
def stubRunner : PacketMap → PacketMap := fun _ => []

/-- A stub runtime that echoes the input image on the image output stream
and returns a fixed classification proto, both at timestamp 100000 us. -/
def echoRunner : PacketMap → PacketMap := fun inputs =>
  [(CLASSIFICATION_RESULT_OUT_STREAM_NAME,
    { payload :=
        PacketPayload.classificationProto { classifications := [{ data := 7 }] },
      timestamp := some 100000 }),
   (IMAGE_OUT_STREAM_NAME,
    { payload := (getPacket inputs IMAGE_IN_STREAM_NAME).payload,
      timestamp := some 100000 })]

/-- A task instance in SYNC_IMAGE mode with no callback. -/
def sampleImageTask : ImageClassifier :=
  { graph_config := imageClassifierTaskInfo.generate_graph_config false,
    running_mode := VisionTaskRunningMode.IMAGE,
    packets_callback_present := false,
    last_timestamp_ms := none }

/-- A task instance in SYNC_VIDEO mode whose guard last accepted 5 ms. -/
def sampleVideoTask : ImageClassifier :=
  { graph_config := imageClassifierTaskInfo.generate_graph_config false,
    running_mode := VisionTaskRunningMode.VIDEO,
    packets_callback_present := false,
    last_timestamp_ms := some 5 }

/-- A task instance in ASYNC_STREAM mode whose guard last accepted 5 ms. -/
def sampleStreamTask : ImageClassifier :=
  { graph_config := imageClassifierTaskInfo.generate_graph_config true,
    running_mode := VisionTaskRunningMode.LIVE_STREAM,
    packets_callback_present := true,
    last_timestamp_ms := some 5 }

/-- Options requesting ASYNC_STREAM with a result callback. -/
def sampleStreamOptions : ImageClassifierOptions :=
  { base_options := { model_asset_path := some TASK_GRAPH_NAME, model_asset_buffer := none },
    running_mode := VisionTaskRunningMode.LIVE_STREAM,
    classifier_options := { data := 0 },
    result_callback_present := true }

/-- Options requesting ASYNC_STREAM without a result callback. -/
def sampleStreamOptionsNoCb : ImageClassifierOptions :=
  { sampleStreamOptions with result_callback_present := false }

/-- Options requesting SYNC_IMAGE together with a result callback. -/
def sampleImageOptionsCb : ImageClassifierOptions :=
  { sampleStreamOptions with running_mode := VisionTaskRunningMode.IMAGE }

/-- A delivered output packet map with a non-empty echoed image at
timestamp 100000 us and one classification group. -/
def sampleOutputPackets : PacketMap :=
  [(CLASSIFICATION_RESULT_OUT_STREAM_NAME,
    { payload :=
        PacketPayload.classificationProto { classifications := [{ data := 7 }] },
      timestamp := some 100000 }),
   (IMAGE_OUT_STREAM_NAME,
    { payload := PacketPayload.image sampleImage, timestamp := some 100000 })]

/-- A delivered output packet map whose echoed-image packet is empty. -/
def sampleDroppedOutputPackets : PacketMap :=
  [(CLASSIFICATION_RESULT_OUT_STREAM_NAME,
    { payload :=
        PacketPayload.classificationProto { classifications := [{ data := 7 }] },
      timestamp := some 100000 }),
   (IMAGE_OUT_STREAM_NAME,
    { payload := PacketPayload.empty, timestamp := some 100000 })]

/-- C1: For every task instance in SYNC_VIDEO or ASYNC_STREAM mode with a
prior accepted timestamp `t1`, calling `classify_for_video` resp.
`classify_async` with `t2 <= t1` fails with the monotonicity usage error,
dispatching no packet set and leaving the task state unchanged; calling
with `t2 > t1` is accepted (no error), dispatches exactly one packet set,
and records `t2` as the new last-accepted timestamp. -/
theorem c1_timestamp_monotonic_guard
    (task : ImageClassifier) (runner : PacketMap → PacketMap)
    (image : Image) (roi : Option NormalizedRect) (t1 t2 : Int)
    (hprev : task.last_timestamp_ms = some t1) :
    (task.running_mode = VisionTaskRunningMode.VIDEO →
      (t2 ≤ t1 →
        task.classify_for_video runner image t2 roi =
          { out := Except.error TaskError.monotonicityViolation,
            submitted := [], state := task }) ∧
      (t1 < t2 →
        (∃ r, (task.classify_for_video runner image t2 roi).out = Except.ok r) ∧
        (task.classify_for_video runner image t2 roi).submitted.length = 1 ∧
        (task.classify_for_video runner image t2 roi).state.last_timestamp_ms =
          some t2)) ∧
    (task.running_mode = VisionTaskRunningMode.LIVE_STREAM →
      (t2 ≤ t1 →
        task.classify_async image t2 roi =
          { out := Except.error TaskError.monotonicityViolation,
            submitted := [], state := task }) ∧
      (t1 < t2 →
        (task.classify_async image t2 roi).out = Except.ok () ∧
        (task.classify_async image t2 roi).submitted.length = 1 ∧
        (task.classify_async image t2 roi).state.last_timestamp_ms =
          some t2)) := by
  constructor
  · intro hm
    constructor
    · intro hle
      have hnacc : timestampAccepted task.last_timestamp_ms t2 = false := by
        simp [hprev, timestampAccepted, not_lt.mpr hle]
      simp [ImageClassifier.classify_for_video, hm, hnacc]
    · intro hlt
      have hacc : timestampAccepted task.last_timestamp_ms t2 = true := by
        simp [hprev, timestampAccepted, hlt]
      refine ⟨?_, ?_, ?_⟩ <;>
        simp [ImageClassifier.classify_for_video, hm, hacc]
  · intro hm
    constructor
    · intro hle
      have hnacc : timestampAccepted task.last_timestamp_ms t2 = false := by
        simp [hprev, timestampAccepted, not_lt.mpr hle]
      simp [ImageClassifier.classify_async, hm, hnacc]
    · intro hlt
      have hacc : timestampAccepted task.last_timestamp_ms t2 = true := by
        simp [hprev, timestampAccepted, hlt]
      refine ⟨?_, ?_, ?_⟩ <;>
        simp [ImageClassifier.classify_async, hm, hacc]

/-- Witness for C1 at concrete tasks with last accepted timestamp 5 ms:
timestamps 3 (rejected) and 7 (accepted and recorded). -/
theorem c1_timestamp_monotonic_guard_witness :
    (sampleVideoTask.classify_for_video stubRunner sampleImage 3 none =
      { out := Except.error TaskError.monotonicityViolation,
        submitted := [], state := sampleVideoTask }) ∧
    ((sampleVideoTask.classify_for_video stubRunner sampleImage 7 none).state.last_timestamp_ms =
      some 7) ∧
    (sampleStreamTask.classify_async sampleImage 3 none =
      { out := Except.error TaskError.monotonicityViolation,
        submitted := [], state := sampleStreamTask }) ∧
    ((sampleStreamTask.classify_async sampleImage 7 none).state.last_timestamp_ms =
      some 7) :=
  ⟨((c1_timestamp_monotonic_guard sampleVideoTask stubRunner sampleImage none 5 3
      rfl).1 rfl).1 (by decide),
   (((c1_timestamp_monotonic_guard sampleVideoTask stubRunner sampleImage none 5 7
      rfl).1 rfl).2 (by decide)).2.2,
   ((c1_timestamp_monotonic_guard sampleStreamTask stubRunner sampleImage none 5 3
      rfl).2 rfl).1 (by decide),
   (((c1_timestamp_monotonic_guard sampleStreamTask stubRunner sampleImage none 5 7
      rfl).2 rfl).2 (by decide)).2.2⟩

/-- C2: For every async delivery whose echoed-image output packet is
empty, the delivery is silently discarded: the result dispatcher returns
without invoking the user callback and raises no error. -/
theorem c2_empty_image_dropped (output_packets : PacketMap)
    (h : (getPacket output_packets IMAGE_OUT_STREAM_NAME).is_empty = true) :
    packets_callback output_packets = none := by
  simp [packets_callback, h]

/-- Witness for C2 at a concrete delivery with an empty image packet. -/
theorem c2_empty_image_dropped_witness :
    packets_callback sampleDroppedOutputPackets = none :=
  c2_empty_image_dropped sampleDroppedOutputPackets (by decide)

/-- C3: For every async delivery whose echoed-image output packet is
non-empty, the user callback is invoked exactly once, with the decoded
classification result, the echoed image, and the output packet's
microsecond timestamp floor-divided by 1000 (Python `//`). -/
theorem c3_callback_delivery (output_packets : PacketMap)
    (img : Image) (t : Int)
    (himg : getPacket output_packets IMAGE_OUT_STREAM_NAME =
      { payload := PacketPayload.image img, timestamp := some t }) :
    packets_callback output_packets =
      some
        ({ classifications :=
            (packet_getter.get_proto
              (getPacket output_packets CLASSIFICATION_RESULT_OUT_STREAM_NAME)).classifications.map
              Classifications.create_from_pb2 },
         img,
         Int.fdiv t MICRO_SECONDS_PER_MILLISECOND) := by
  simp [packets_callback, himg, Packet.is_empty, packet_getter.get_image,
    Packet.timestamp_value]

/-- Witness for C3 at a concrete delivery: image echoed, one decoded
classification group, timestamp 100000 us reported as 100 ms. -/
theorem c3_callback_delivery_witness :
    packets_callback sampleOutputPackets =
      some ({ classifications := [{ pb2 := { data := 7 } }] }, sampleImage, 100) :=
  c3_callback_delivery sampleOutputPackets sampleImage 100000 rfl

/-- C4: For every image and every entry point, calling with `roi` omitted
produces exactly the same call outcome (in particular the same packet set
sent to the runtime) as calling with the full-image default rect
`{1/2, 1/2, 1, 1}`; and when `roi` is supplied it is forwarded unchanged
in the dispatched packet set. -/
theorem c4_roi_defaulting
    (task : ImageClassifier) (runner : PacketMap → PacketMap) (image : Image)
    (t : Int) (r : NormalizedRect)
    (hacc : timestampAccepted task.last_timestamp_ms t = true) :
    (task.classify runner image none =
      task.classify runner image (some build_full_image_norm_rect)) ∧
    (task.classify_for_video runner image t none =
      task.classify_for_video runner image t (some build_full_image_norm_rect)) ∧
    (task.classify_async image t none =
      task.classify_async image t (some build_full_image_norm_rect)) ∧
    (task.running_mode = VisionTaskRunningMode.IMAGE →
      (task.classify runner image (some r)).submitted =
        [[(IMAGE_IN_STREAM_NAME, packet_creator.create_image image),
          (NORM_RECT_NAME, packet_creator.create_proto r.to_pb2)]]) ∧
    (task.running_mode = VisionTaskRunningMode.VIDEO →
      (task.classify_for_video runner image t (some r)).submitted =
        [[(IMAGE_IN_STREAM_NAME,
           (packet_creator.create_image image).atTimestamp
             (t * MICRO_SECONDS_PER_MILLISECOND)),
          (NORM_RECT_NAME,
           (packet_creator.create_proto r.to_pb2).atTimestamp
             (t * MICRO_SECONDS_PER_MILLISECOND))]]) ∧
    (task.running_mode = VisionTaskRunningMode.LIVE_STREAM →
      (task.classify_async image t (some r)).submitted =
        [[(IMAGE_IN_STREAM_NAME,
           (packet_creator.create_image image).atTimestamp
             (t * MICRO_SECONDS_PER_MILLISECOND)),
          (NORM_RECT_NAME,
           (packet_creator.create_proto r.to_pb2).atTimestamp
             (t * MICRO_SECONDS_PER_MILLISECOND))]]) := by
  refine ⟨?_, ?_, ?_, ?_, ?_, ?_⟩
  · by_cases hm : task.running_mode = VisionTaskRunningMode.IMAGE <;>
      simp [ImageClassifier.classify, hm]
  · by_cases hm : task.running_mode = VisionTaskRunningMode.VIDEO <;>
      simp [ImageClassifier.classify_for_video, hm, hacc]
  · by_cases hm : task.running_mode = VisionTaskRunningMode.LIVE_STREAM <;>
      simp [ImageClassifier.classify_async, hm, hacc]
  · intro hm
    simp [ImageClassifier.classify, hm]
  · intro hm
    simp [ImageClassifier.classify_for_video, hm, hacc]
  · intro hm
    simp [ImageClassifier.classify_async, hm, hacc]

/-- Witness for C4 at concrete tasks: omitted roi equals the explicit
full-image default on a SYNC_IMAGE task, and a supplied roi is forwarded
unchanged in the dispatched packet sets of the two timestamped modes. -/
theorem c4_roi_defaulting_witness :
    (sampleImageTask.classify stubRunner sampleImage none =
      sampleImageTask.classify stubRunner sampleImage
        (some build_full_image_norm_rect)) ∧
    ((sampleVideoTask.classify_for_video stubRunner sampleImage 7
        (some sampleRect)).submitted =
      [[(IMAGE_IN_STREAM_NAME,
         (packet_creator.create_image sampleImage).atTimestamp
           (7 * MICRO_SECONDS_PER_MILLISECOND)),
        (NORM_RECT_NAME,
         (packet_creator.create_proto sampleRect.to_pb2).atTimestamp
           (7 * MICRO_SECONDS_PER_MILLISECOND))]]) ∧
    ((sampleStreamTask.classify_async sampleImage 7
        (some sampleRect)).submitted =
      [[(IMAGE_IN_STREAM_NAME,
         (packet_creator.create_image sampleImage).atTimestamp
           (7 * MICRO_SECONDS_PER_MILLISECOND)),
        (NORM_RECT_NAME,
         (packet_creator.create_proto sampleRect.to_pb2).atTimestamp
           (7 * MICRO_SECONDS_PER_MILLISECOND))]]) :=
  ⟨(c4_roi_defaulting sampleImageTask stubRunner sampleImage 7 sampleRect
      (by decide)).1,
   (c4_roi_defaulting sampleVideoTask stubRunner sampleImage 7 sampleRect
      (by decide)).2.2.2.2.1 rfl,
   (c4_roi_defaulting sampleStreamTask stubRunner sampleImage 7 sampleRect
      (by decide)).2.2.2.2.2 rfl⟩

/-- C5: For every accepted `classify_for_video` or `classify_async` call
with timestamp `t` ms, exactly one packet set is dispatched and both of
its members (image packet and region-of-interest packet) carry the
identical internal timestamp `t * 1000` us; for `classify` (SYNC_IMAGE)
both dispatched packets are untimed. -/
theorem c5_packet_timestamps
    (task : ImageClassifier) (runner : PacketMap → PacketMap) (image : Image)
    (t : Int) (roi : Option NormalizedRect)
    (hacc : timestampAccepted task.last_timestamp_ms t = true) :
    (task.running_mode = VisionTaskRunningMode.VIDEO →
      (task.classify_for_video runner image t roi).submitted.map
          (fun s => s.map (fun q => q.2.timestamp)) =
        [[some (t * MICRO_SECONDS_PER_MILLISECOND),
          some (t * MICRO_SECONDS_PER_MILLISECOND)]]) ∧
    (task.running_mode = VisionTaskRunningMode.LIVE_STREAM →
      (task.classify_async image t roi).submitted.map
          (fun s => s.map (fun q => q.2.timestamp)) =
        [[some (t * MICRO_SECONDS_PER_MILLISECOND),
          some (t * MICRO_SECONDS_PER_MILLISECOND)]]) ∧
    (task.running_mode = VisionTaskRunningMode.IMAGE →
      (task.classify runner image roi).submitted.map
          (fun s => s.map (fun q => q.2.timestamp)) =
        [[none, none]]) := by
  refine ⟨?_, ?_, ?_⟩
  · intro hm
    simp [ImageClassifier.classify_for_video, hm, hacc, Packet.atTimestamp,
      packet_creator.create_image, packet_creator.create_proto]
  · intro hm
    simp [ImageClassifier.classify_async, hm, hacc, Packet.atTimestamp,
      packet_creator.create_image, packet_creator.create_proto]
  · intro hm
    simp [ImageClassifier.classify, hm,
      packet_creator.create_image, packet_creator.create_proto]

/-- Witness for C5 at concrete accepted calls with timestamp 7 ms: both
packets carry 7000 us in the timestamped modes, none in SYNC_IMAGE. -/
theorem c5_packet_timestamps_witness :
    ((sampleVideoTask.classify_for_video stubRunner sampleImage 7 none).submitted.map
        (fun s => s.map (fun q => q.2.timestamp)) =
      [[some (7 * MICRO_SECONDS_PER_MILLISECOND),
        some (7 * MICRO_SECONDS_PER_MILLISECOND)]]) ∧
    ((sampleStreamTask.classify_async sampleImage 7 none).submitted.map
        (fun s => s.map (fun q => q.2.timestamp)) =
      [[some (7 * MICRO_SECONDS_PER_MILLISECOND),
        some (7 * MICRO_SECONDS_PER_MILLISECOND)]]) ∧
    ((sampleImageTask.classify stubRunner sampleImage none).submitted.map
        (fun s => s.map (fun q => q.2.timestamp)) =
      [[none, none]]) :=
  ⟨(c5_packet_timestamps sampleVideoTask stubRunner sampleImage 7 none
      (by decide)).1 rfl,
   (c5_packet_timestamps sampleStreamTask stubRunner sampleImage 7 none
      (by decide)).2.1 rfl,
   (c5_packet_timestamps sampleImageTask stubRunner sampleImage 7 none
      (by decide)).2.2 rfl⟩

/-- C6 counterexample: with a runtime that echoes the input image on the
image output stream at a definite timestamp, two `classify` calls on a
SYNC_IMAGE task with different input images (hence different echoed
images) return identical values.  The sync return value therefore cannot
contain the echoed input image (nor the timestamp): the claim that the
returned value contains them is false at this input. -/
theorem c6_counterexample :
    ((sampleImageTask.classify echoRunner sampleImage none).out =
      (sampleImageTask.classify echoRunner sampleImage2 none).out) ∧
    packet_getter.get_image
        (getPacket
          (echoRunner
            ((sampleImageTask.classify echoRunner sampleImage none).submitted.headD []))
          IMAGE_OUT_STREAM_NAME) ≠
      packet_getter.get_image
        (getPacket
          (echoRunner
            ((sampleImageTask.classify echoRunner sampleImage2 none).submitted.headD []))
          IMAGE_OUT_STREAM_NAME) :=
  ⟨rfl, by decide⟩

/-- C6 (amended): For every successful `classify` or `classify_for_video`
call, the returned value is exactly the list of per-category
classification groups decoded from the classification-result output
packet of the runtime's reply, produced exactly once per accepted input
(one dispatched packet set per call); the echoed input image and the
timestamp are not part of the sync return value. -/
theorem c6_sync_result
    (task : ImageClassifier) (runner : PacketMap → PacketMap) (image : Image)
    (t : Int) (roi : Option NormalizedRect)
    (hacc : timestampAccepted task.last_timestamp_ms t = true) :
    (task.running_mode = VisionTaskRunningMode.IMAGE →
      (task.classify runner image roi).out =
        Except.ok
          { classifications :=
              (packet_getter.get_proto
                (getPacket
                  (runner ((task.classify runner image roi).submitted.headD []))
                  CLASSIFICATION_RESULT_OUT_STREAM_NAME)).classifications.map
                Classifications.create_from_pb2 } ∧
      (task.classify runner image roi).submitted.length = 1) ∧
    (task.running_mode = VisionTaskRunningMode.VIDEO →
      (task.classify_for_video runner image t roi).out =
        Except.ok
          { classifications :=
              (packet_getter.get_proto
                (getPacket
                  (runner
                    ((task.classify_for_video runner image t roi).submitted.headD []))
                  CLASSIFICATION_RESULT_OUT_STREAM_NAME)).classifications.map
                Classifications.create_from_pb2 } ∧
      (task.classify_for_video runner image t roi).submitted.length = 1) := by
  constructor
  · intro hm
    constructor <;> simp [ImageClassifier.classify, hm]
  · intro hm
    constructor <;> simp [ImageClassifier.classify_for_video, hm, hacc]

/-- Witness for C6 (amended) at concrete accepted calls against the stub
runtime that returns no packets: the decoded result is the empty group
list and exactly one packet set was dispatched per call. -/
theorem c6_sync_result_witness :
    ((sampleImageTask.classify stubRunner sampleImage none).out =
      Except.ok { classifications := [] } ∧
     (sampleImageTask.classify stubRunner sampleImage none).submitted.length = 1) ∧
    ((sampleVideoTask.classify_for_video stubRunner sampleImage 7 none).out =
      Except.ok { classifications := [] } ∧
     (sampleVideoTask.classify_for_video stubRunner sampleImage 7 none).submitted.length = 1) :=
  ⟨(c6_sync_result sampleImageTask stubRunner sampleImage 7 none (by decide)).1 rfl,
   (c6_sync_result sampleVideoTask stubRunner sampleImage 7 none (by decide)).2 rfl⟩

/-- C7: `create_from_options` creates a task exactly when callback
presence matches ASYNC_STREAM mode: with ASYNC_STREAM and no callback it
fails at construction with the missing-callback configuration error, and
with a callback in a non-async mode it fails with the unexpected-callback
configuration error. -/
theorem c7_callback_mode_validation (options : ImageClassifierOptions) :
    ((∃ task, ImageClassifier.create_from_options options = Except.ok task) ↔
      (options.result_callback_present = true ↔
        options.running_mode = VisionTaskRunningMode.LIVE_STREAM)) ∧
    (options.running_mode = VisionTaskRunningMode.LIVE_STREAM →
      options.result_callback_present = false →
      ImageClassifier.create_from_options options =
        Except.error TaskError.resultCallbackMissing) ∧
    (options.running_mode ≠ VisionTaskRunningMode.LIVE_STREAM →
      options.result_callback_present = true →
      ImageClassifier.create_from_options options =
        Except.error TaskError.resultCallbackUnexpected) := by
  by_cases hm : options.running_mode = VisionTaskRunningMode.LIVE_STREAM <;>
    cases hcb : options.result_callback_present <;>
      simp [ImageClassifier.create_from_options, hm, hcb]

/-- Witness for C7 at concrete options: ASYNC_STREAM without a callback
and SYNC_IMAGE with a callback both fail at construction. -/
theorem c7_callback_mode_validation_witness :
    ImageClassifier.create_from_options sampleStreamOptionsNoCb =
      Except.error TaskError.resultCallbackMissing ∧
    ImageClassifier.create_from_options sampleImageOptionsCb =
      Except.error TaskError.resultCallbackUnexpected :=
  ⟨(c7_callback_mode_validation sampleStreamOptionsNoCb).2.1 rfl rfl,
   (c7_callback_mode_validation sampleImageOptionsCb).2.2 (by decide) rfl⟩

/-- C8: Invoking an entry point whose required mode differs from the mode
fixed at construction fails with the invalid-running-mode usage error,
dispatches no packet to the runtime, and leaves the task state unchanged,
for all mismatched mode/entry-point combinations. -/
theorem c8_mode_mismatch
    (task : ImageClassifier) (runner : PacketMap → PacketMap) (image : Image)
    (t : Int) (roi : Option NormalizedRect) :
    (task.running_mode ≠ VisionTaskRunningMode.IMAGE →
      task.classify runner image roi =
        { out := Except.error TaskError.invalidRunningMode,
          submitted := [], state := task }) ∧
    (task.running_mode ≠ VisionTaskRunningMode.VIDEO →
      task.classify_for_video runner image t roi =
        { out := Except.error TaskError.invalidRunningMode,
          submitted := [], state := task }) ∧
    (task.running_mode ≠ VisionTaskRunningMode.LIVE_STREAM →
      task.classify_async image t roi =
        { out := Except.error TaskError.invalidRunningMode,
          submitted := [], state := task }) := by
  refine ⟨?_, ?_, ?_⟩
  · intro hm
    simp [ImageClassifier.classify, hm]
  · intro hm
    simp [ImageClassifier.classify_for_video, hm]
  · intro hm
    simp [ImageClassifier.classify_async, hm]

/-- Witness for C8 at concrete tasks: all three mismatched entry-point
invocations fail with the usage error, dispatching nothing. -/
theorem c8_mode_mismatch_witness :
    (sampleVideoTask.classify stubRunner sampleImage none =
      { out := Except.error TaskError.invalidRunningMode,
        submitted := [], state := sampleVideoTask }) ∧
    (sampleImageTask.classify_for_video stubRunner sampleImage 7 none =
      { out := Except.error TaskError.invalidRunningMode,
        submitted := [], state := sampleImageTask }) ∧
    (sampleVideoTask.classify_async sampleImage 7 none =
      { out := Except.error TaskError.invalidRunningMode,
        submitted := [], state := sampleVideoTask }) :=
  ⟨(c8_mode_mismatch sampleVideoTask stubRunner sampleImage 7 none).1 (by decide),
   (c8_mode_mismatch sampleImageTask stubRunner sampleImage 7 none).2.1 (by decide),
   (c8_mode_mismatch sampleVideoTask stubRunner sampleImage 7 none).2.2 (by decide)⟩

/-- C9: The graph configuration passed to the runtime requests flow
limiting if and only if the configured running mode is ASYNC_STREAM, and
every successfully created task carries exactly that configuration. -/
theorem c9_flow_limiting (options : ImageClassifierOptions) :
    ((generated_graph_config options).enable_flow_limiting = true ↔
      options.running_mode = VisionTaskRunningMode.LIVE_STREAM) ∧
    (∀ task, ImageClassifier.create_from_options options = Except.ok task →
      task.graph_config = generated_graph_config options) := by
  constructor
  · simp [generated_graph_config, TaskInfo.generate_graph_config]
  · intro task h
    by_cases hm : options.running_mode = VisionTaskRunningMode.LIVE_STREAM <;>
      cases hcb : options.result_callback_present <;>
        simp [ImageClassifier.create_from_options, hm, hcb] at h <;>
          simp [← h]

/-- Witness for C9 at concrete ASYNC_STREAM options: the generated
configuration requests flow limiting and the created task carries it. -/
theorem c9_flow_limiting_witness :
    (generated_graph_config sampleStreamOptions).enable_flow_limiting = true ∧
    ({ graph_config := generated_graph_config sampleStreamOptions,
       running_mode := VisionTaskRunningMode.LIVE_STREAM,
       packets_callback_present := true,
       last_timestamp_ms := none } : ImageClassifier).graph_config =
      generated_graph_config sampleStreamOptions :=
  ⟨(c9_flow_limiting sampleStreamOptions).1.mpr rfl,
   (c9_flow_limiting sampleStreamOptions).2 _ rfl⟩

/-- C10: `ImageClassifierOptions.to_pb2` sets `use_stream_mode` on the
generated base-options proto to false if and only if the running mode is
SYNC_IMAGE (true for SYNC_VIDEO and ASYNC_STREAM), leaves the other
base-option fields unchanged, and passes the classifier options through. -/
theorem c10_use_stream_mode (options : ImageClassifierOptions) :
    ((options.to_pb2).base_options.use_stream_mode = false ↔
      options.running_mode = VisionTaskRunningMode.IMAGE) ∧
    (options.to_pb2).base_options.model_asset_path =
      options.base_options.model_asset_path ∧
    (options.to_pb2).base_options.model_asset_buffer =
      options.base_options.model_asset_buffer ∧
    (options.to_pb2).classifier_options = options.classifier_options.to_pb2 := by
  by_cases hm : options.running_mode = VisionTaskRunningMode.IMAGE <;>
    simp [ImageClassifierOptions.to_pb2, BaseOptions.to_pb2, hm]

end Mediapipe
